import Mathlib

/-
Verification of the compensation engine of the ophthalmology compensation
calculator (src/app.py).  The core logic is the function
`calculate_compensation` (lines 23-90), which evaluates three copies of the
linear-threshold formula

  threshold = base_salary * multiplier
  excess    = max(0, net_collections - threshold)
  bonus     = excess * (bonus_percentage / 100)
  total     = base_salary + bonus

plus the comparison sweep (lines 251-263) that maps the same function over
np.linspace(100000, 3000000, 100).  Numeric values are modelled as rationals.
-/

namespace OphthoCalc

/-- A parameter set for one formula slot, as built by the UI layer in
src/app.py lines 193-209: base salary, threshold multiplier and bonus
percentage. -/
structure FormulaParameters where
  base_salary : ℚ
  multiplier : ℚ
  bonus_percentage : ℚ
deriving Repr, DecidableEq

/-- The per-slot result record returned by `calculate_compensation`
(src/app.py lines 56-90): the base component, the bonus component, the
total, and the two detail values (bonus threshold and collections above
threshold) that the code also reports. -/
structure FormulaResult where
  base_component : ℚ
  bonus_component : ℚ
  total : ℚ
  threshold : ℚ
  collections_above_threshold : ℚ
deriving Repr, DecidableEq

/-- The full return value of `calculate_compensation`: one result record
per formula slot. -/
structure CompensationResults where
  formula1 : FormulaResult
  formula2 : FormulaResult
  formula3 : FormulaResult
deriving Repr, DecidableEq

/-- Direct translation of `calculate_compensation` (src/app.py lines 23-90):
the three formula blocks are written out inline, exactly as in the source,
each computing threshold, clamped excess, bonus and total from its own
parameter set against the shared `net_collections` value. -/
def calculate_compensation (formula1_params formula2_params formula3_params :
    FormulaParameters) (net_collections : ℚ) : CompensationResults :=
  let base_salary1 := formula1_params.base_salary
  let multiplier1 := formula1_params.multiplier
  let bonus_percentage1 := formula1_params.bonus_percentage
  let base_salary2 := formula2_params.base_salary
  let multiplier2 := formula2_params.multiplier
  let bonus_percentage2 := formula2_params.bonus_percentage
  let base_salary3 := formula3_params.base_salary
  let multiplier3 := formula3_params.multiplier
  let bonus_percentage3 := formula3_params.bonus_percentage
  let formula1_threshold := base_salary1 * multiplier1
  let formula1_bonus := max 0 (net_collections - formula1_threshold) *
    (bonus_percentage1 / 100)
  let formula1_total := base_salary1 + formula1_bonus
  let formula2_threshold := base_salary2 * multiplier2
  let formula2_bonus := max 0 (net_collections - formula2_threshold) *
    (bonus_percentage2 / 100)
  let formula2_total := base_salary2 + formula2_bonus
  let formula3_threshold := base_salary3 * multiplier3
  let formula3_bonus := max 0 (net_collections - formula3_threshold) *
    (bonus_percentage3 / 100)
  let formula3_total := base_salary3 + formula3_bonus
  { formula1 :=
      { base_component := base_salary1
        bonus_component := formula1_bonus
        total := formula1_total
        threshold := formula1_threshold
        collections_above_threshold :=
          max 0 (net_collections - formula1_threshold) }
    formula2 :=
      { base_component := base_salary2
        bonus_component := formula2_bonus
        total := formula2_total
        threshold := formula2_threshold
        collections_above_threshold :=
          max 0 (net_collections - formula2_threshold) }
    formula3 :=
      { base_component := base_salary3
        bonus_component := formula3_bonus
        total := formula3_total
        threshold := formula3_threshold
        collections_above_threshold :=
          max 0 (net_collections - formula3_threshold) } }

/-- The single-slot operation `compute(params, collections)` of the spec:
one formula block of `calculate_compensation` (src/app.py lines 42-44),
parameterized over its own parameter set. -/
def compute (params : FormulaParameters) (net_collections : ℚ) :
    FormulaResult :=
  let threshold := params.base_salary * params.multiplier
  let bonus := max 0 (net_collections - threshold) *
    (params.bonus_percentage / 100)
  { base_component := params.base_salary
    bonus_component := bonus
    total := params.base_salary + bonus
    threshold := threshold
    collections_above_threshold := max 0 (net_collections - threshold) }

/-- A parameter dictionary as the UI layer actually passes it (src/app.py
lines 193-209): a string-keyed association list of numeric values.  A
Python `params["key"]` access fails (KeyError) exactly when the key is
absent, which the `Option`-valued lookup models. -/
def ParamsDict : Type := List (String × ℚ)

/-- The dictionary the UI layer builds from a parameter set (src/app.py
lines 193-209): exactly the keys base_salary, multiplier and
bonus_percentage. -/
def paramsToDict (p : FormulaParameters) : ParamsDict :=
  [("base_salary", p.base_salary), ("multiplier", p.multiplier),
   ("bonus_percentage", p.bonus_percentage)]

/-- One formula block of `calculate_compensation` with the Python dict
accesses made explicit: each of the three `params[...]` lookups
(src/app.py lines 27-29) may raise KeyError (modelled as `none`); every
later statement (lines 42-44) is plain arithmetic and cannot fail. -/
def computeFromDict (params : ParamsDict) (net_collections : ℚ) :
    Option FormulaResult := do
  let base_salary ← params.lookup "base_salary"
  let multiplier ← params.lookup "multiplier"
  let bonus_percentage ← params.lookup "bonus_percentage"
  let threshold := base_salary * multiplier
  let bonus := max 0 (net_collections - threshold) * (bonus_percentage / 100)
  pure
    { base_component := base_salary
      bonus_component := bonus
      total := base_salary + bonus
      threshold := threshold
      collections_above_threshold := max 0 (net_collections - threshold) }

/-- One row of the comparison series (src/app.py lines 256-261): the
collections sample and the three formula totals at that sample. -/
structure ComparisonRow where
  net_collections : ℚ
  formula1 : ℚ
  formula2 : ℚ
  formula3 : ℚ
deriving Repr, DecidableEq

/-- The sweep loop of src/app.py lines 254-261, parameterized over its
sample sequence: for each collections sample, evaluate
`calculate_compensation` and record the sample together with the three
totals, preserving the order of the samples. -/
def sweep (formula1_params formula2_params formula3_params :
    FormulaParameters) (samples : List ℚ) : List ComparisonRow :=
  samples.map fun collection =>
    let comp_results := calculate_compensation formula1_params
      formula2_params formula3_params collection
    { net_collections := collection
      formula1 := comp_results.formula1.total
      formula2 := comp_results.formula2.total
      formula3 := comp_results.formula3.total }

/-- The fixed sample range `np.linspace(100000, 3000000, 100)`
(src/app.py line 251): 100 evenly spaced points from 100000 to 3000000
inclusive, point i being start + i * (stop - start) / (num - 1). -/
def collection_range : List ℚ :=
  (List.range 100).map fun (i : ℕ) =>
    (100000 : ℚ) + (i : ℚ) * ((3000000 - 100000) / 99)

/-- The comparison series actually fed to the chart (src/app.py lines
252-263): the sweep over the fixed collection range. -/
def comparison_data (formula1_params formula2_params formula3_params :
    FormulaParameters) : List ComparisonRow :=
  sweep formula1_params formula2_params formula3_params collection_range

/-- The default parameter set of the UI (src/app.py lines 107-132):
base salary 300000, multiplier 3.0, bonus percentage 30. -/
def exampleParams : FormulaParameters :=
  { base_salary := 300000, multiplier := 3, bonus_percentage := 30 }

/-- The algorithm as the spec words it, stated as a relation on a result
record: threshold = base_salary * multiplier, excess = max(0, collections -
threshold), bonus = excess * bonus_percentage / 100, total = base_salary +
bonus. -/
def FollowsSpecAlgorithm (p : FormulaParameters) (collections : ℚ)
    (r : FormulaResult) : Prop :=
  r.threshold = p.base_salary * p.multiplier ∧
  r.collections_above_threshold = max 0 (collections - r.threshold) ∧
  r.bonus_component =
    r.collections_above_threshold * (p.bonus_percentage / 100) ∧
  r.total = p.base_salary + r.bonus_component

/-- Index formula for the fixed linspace sample range: sample i is
100000 + i * (2900000 / 99). -/
theorem collection_range_getElem (i : ℕ) (h : i < 100) :
    collection_range[i]? =
      some (100000 + (i : ℚ) * ((3000000 - 100000) / 99)) := by
  unfold collection_range
  rw [List.getElem?_map, List.getElem?_range h]
  rfl

/-- Claim C1: for every parameter-set triple and collections value, each
formula slot of `calculate_compensation` returns exactly threshold =
base_salary * multiplier, excess = max(0, collections - threshold), bonus =
excess * bonus_percentage / 100 and total = base_salary + bonus. -/
theorem calculate_compensation_follows_algorithm
    (p1 p2 p3 : FormulaParameters) (c : ℚ) :
    FollowsSpecAlgorithm p1 c (calculate_compensation p1 p2 p3 c).formula1 ∧
    FollowsSpecAlgorithm p2 c (calculate_compensation p1 p2 p3 c).formula2 ∧
    FollowsSpecAlgorithm p3 c (calculate_compensation p1 p2 p3 c).formula3 :=
  ⟨⟨rfl, rfl, rfl, rfl⟩, ⟨rfl, rfl, rfl, rfl⟩, ⟨rfl, rfl, rfl, rfl⟩⟩

/-- Claim C2: for every valid input, the total is at least the base salary
(the bonus component is never negative) and the threshold equals
base_salary * multiplier exactly. -/
theorem compute_total_ge_base (p : FormulaParameters) (c : ℚ)
    (hb : 0 ≤ p.base_salary) (hm : 1 ≤ p.multiplier)
    (hp0 : 0 ≤ p.bonus_percentage) (hp1 : p.bonus_percentage ≤ 100)
    (hc : 0 ≤ c) :
    p.base_salary ≤ (compute p c).total ∧
    (compute p c).threshold = p.base_salary * p.multiplier := by
  constructor
  · simp only [compute]
    exact le_add_of_nonneg_right
      (mul_nonneg (le_max_left 0 _) (div_nonneg hp0 (by norm_num)))
  · rfl

/-- Concrete instantiation of `compute_total_ge_base` at the default
parameters and collections 1000000. -/
theorem compute_total_ge_base_witness :
    ((0 : ℚ) ≤ exampleParams.base_salary ∧ 1 ≤ exampleParams.multiplier ∧
      0 ≤ exampleParams.bonus_percentage ∧
      exampleParams.bonus_percentage ≤ 100 ∧ (0 : ℚ) ≤ 1000000) ∧
    exampleParams.base_salary ≤ (compute exampleParams 1000000).total ∧
    (compute exampleParams 1000000).threshold =
      exampleParams.base_salary * exampleParams.multiplier :=
  ⟨⟨by decide, by decide, by decide, by decide, by decide⟩,
    compute_total_ge_base exampleParams 1000000 (by decide) (by decide)
      (by decide) (by decide) (by decide)⟩

/-- Claim C3: for every parameter-set triple and every ordered sample
sequence, the sweep yields exactly one row per sample, in order, and row i
is the sample together with the three totals of `calculate_compensation`
evaluated independently at that sample. -/
theorem sweep_matches_samples (p1 p2 p3 : FormulaParameters)
    (samples : List ℚ) :
    (sweep p1 p2 p3 samples).length = samples.length ∧
    ∀ (i : ℕ) (c : ℚ), samples[i]? = some c →
      (sweep p1 p2 p3 samples)[i]? = some
        { net_collections := c
          formula1 := (calculate_compensation p1 p2 p3 c).formula1.total
          formula2 := (calculate_compensation p1 p2 p3 c).formula2.total
          formula3 := (calculate_compensation p1 p2 p3 c).formula3.total } := by
  constructor
  · simp [sweep]
  · intro i c hc
    simp [sweep, hc]

/-- Concrete instantiation of `sweep_matches_samples` on the one-sample
list [1000000] with the default parameters. -/
theorem sweep_matches_samples_witness :
    ([(1000000 : ℚ)])[0]? = some 1000000 ∧
    (sweep exampleParams exampleParams exampleParams [1000000])[0]? = some
      { net_collections := (1000000 : ℚ)
        formula1 := (calculate_compensation exampleParams exampleParams
          exampleParams 1000000).formula1.total
        formula2 := (calculate_compensation exampleParams exampleParams
          exampleParams 1000000).formula2.total
        formula3 := (calculate_compensation exampleParams exampleParams
          exampleParams 1000000).formula3.total } :=
  ⟨rfl, (sweep_matches_samples exampleParams exampleParams exampleParams
    [1000000]).2 0 1000000 rfl⟩

/-- Claim C4: each slot of `calculate_compensation` equals `compute`
applied to that slot's own parameter set and the shared collections value;
in particular no slot depends on the other two parameter sets. -/
theorem calculate_compensation_eq_compute_each_slot
    (p1 p2 p3 : FormulaParameters) (c : ℚ) :
    (calculate_compensation p1 p2 p3 c).formula1 = compute p1 c ∧
    (calculate_compensation p1 p2 p3 c).formula2 = compute p2 c ∧
    (calculate_compensation p1 p2 p3 c).formula3 = compute p3 c :=
  ⟨rfl, rfl, rfl⟩

/-- Claim C5: for a fixed valid parameter set, the total is monotone in the
collections value. -/
theorem compute_total_monotone (p : FormulaParameters) (c1 c2 : ℚ)
    (hb : 0 ≤ p.base_salary) (hm : 1 ≤ p.multiplier)
    (hp0 : 0 ≤ p.bonus_percentage) (hp1 : p.bonus_percentage ≤ 100)
    (hc1 : 0 ≤ c1) (hle : c1 ≤ c2) :
    (compute p c1).total ≤ (compute p c2).total := by
  simp only [compute]
  refine add_le_add_left (mul_le_mul_of_nonneg_right ?_
    (div_nonneg hp0 (by norm_num))) _
  exact max_le_max le_rfl (sub_le_sub_right hle _)

/-- Concrete instantiation of `compute_total_monotone` at the default
parameters with collections 500000 and 1000000. -/
theorem compute_total_monotone_witness :
    ((0 : ℚ) ≤ exampleParams.base_salary ∧ 1 ≤ exampleParams.multiplier ∧
      0 ≤ exampleParams.bonus_percentage ∧
      exampleParams.bonus_percentage ≤ 100 ∧ (0 : ℚ) ≤ 500000 ∧
      (500000 : ℚ) ≤ 1000000) ∧
    (compute exampleParams 500000).total ≤
      (compute exampleParams 1000000).total :=
  ⟨⟨by decide, by decide, by decide, by decide, by decide, by decide⟩,
    compute_total_monotone exampleParams 500000 1000000 (by decide)
      (by decide) (by decide) (by decide) (by decide) (by decide)⟩

/-- Claim C6: above the threshold the total is affine in the collections
value, total = base_salary + (collections - threshold) * bonus_percentage /
100, and between any two points above the threshold the increment has slope
bonus_percentage / 100. -/
theorem compute_affine_above_threshold (p : FormulaParameters) (c : ℚ)
    (hb : 0 ≤ p.base_salary) (hm : 1 ≤ p.multiplier)
    (hp0 : 0 ≤ p.bonus_percentage) (hp1 : p.bonus_percentage ≤ 100)
    (hc : p.base_salary * p.multiplier < c) :
    (compute p c).total = p.base_salary +
      (c - p.base_salary * p.multiplier) * (p.bonus_percentage / 100) ∧
    ∀ c2 : ℚ, p.base_salary * p.multiplier < c2 →
      (compute p c2).total - (compute p c).total =
        (c2 - c) * (p.bonus_percentage / 100) := by
  constructor
  · simp only [compute]
    rw [max_eq_right (sub_nonneg.2 hc.le)]
  · intro c2 hc2
    simp only [compute]
    rw [max_eq_right (sub_nonneg.2 hc.le), max_eq_right (sub_nonneg.2 hc2.le)]
    ring

/-- Concrete instantiation of `compute_affine_above_threshold` at the
default parameters (threshold 900000) with collections 1000000 and second
point 2000000. -/
theorem compute_affine_above_threshold_witness :
    ((0 : ℚ) ≤ exampleParams.base_salary ∧ 1 ≤ exampleParams.multiplier ∧
      0 ≤ exampleParams.bonus_percentage ∧
      exampleParams.bonus_percentage ≤ 100 ∧
      exampleParams.base_salary * exampleParams.multiplier < 1000000 ∧
      exampleParams.base_salary * exampleParams.multiplier < 2000000) ∧
    (compute exampleParams 1000000).total = exampleParams.base_salary +
      (1000000 - exampleParams.base_salary * exampleParams.multiplier) *
        (exampleParams.bonus_percentage / 100) ∧
    (compute exampleParams 2000000).total -
        (compute exampleParams 1000000).total =
      (2000000 - 1000000) * (exampleParams.bonus_percentage / 100) :=
  ⟨⟨by decide, by decide, by decide, by decide,
      by norm_num [exampleParams], by norm_num [exampleParams]⟩,
    (compute_affine_above_threshold exampleParams 1000000 (by decide)
      (by decide) (by decide) (by decide) (by norm_num [exampleParams])).1,
    (compute_affine_above_threshold exampleParams 1000000 (by decide)
      (by decide) (by decide) (by decide) (by norm_num [exampleParams])).2
      2000000 (by norm_num [exampleParams])⟩

/-- Claim C7: at or below the threshold (boundary included) the bonus is
zero and the total equals the base salary. -/
theorem compute_at_or_below_threshold (p : FormulaParameters) (c : ℚ)
    (hb : 0 ≤ p.base_salary) (hm : 1 ≤ p.multiplier)
    (hp0 : 0 ≤ p.bonus_percentage) (hp1 : p.bonus_percentage ≤ 100)
    (hc : c ≤ p.base_salary * p.multiplier) :
    (compute p c).bonus_component = 0 ∧
    (compute p c).total = p.base_salary := by
  have h0 : max 0 (c - p.base_salary * p.multiplier) = 0 :=
    max_eq_left (sub_nonpos.2 hc)
  constructor <;> simp [compute, h0]

/-- Concrete instantiation of `compute_at_or_below_threshold` exactly at
the boundary: default parameters, collections = threshold = 900000. -/
theorem compute_at_or_below_threshold_witness :
    ((0 : ℚ) ≤ exampleParams.base_salary ∧ 1 ≤ exampleParams.multiplier ∧
      0 ≤ exampleParams.bonus_percentage ∧
      exampleParams.bonus_percentage ≤ 100 ∧
      (900000 : ℚ) ≤ exampleParams.base_salary * exampleParams.multiplier) ∧
    (compute exampleParams 900000).bonus_component = 0 ∧
    (compute exampleParams 900000).total = exampleParams.base_salary :=
  ⟨⟨by decide, by decide, by decide, by decide,
      by norm_num [exampleParams]⟩,
    compute_at_or_below_threshold exampleParams 900000 (by decide)
      (by decide) (by decide) (by decide) (by norm_num [exampleParams])⟩

/-- Claim C8: on the documented domain the computation is total: with the
parameter dictionary the UI actually builds, every dictionary access
succeeds and the function returns a fully populated result record, never an
error. -/
theorem computeFromDict_total_on_domain (p : FormulaParameters) (c : ℚ)
    (hb : 0 ≤ p.base_salary) (hm : 1 ≤ p.multiplier)
    (hp0 : 0 ≤ p.bonus_percentage) (hp1 : p.bonus_percentage ≤ 100)
    (hc : 0 ≤ c) :
    computeFromDict (paramsToDict p) c = some (compute p c) := rfl

/-- Concrete instantiation of `computeFromDict_total_on_domain` at the
default parameters and collections 1000000. -/
theorem computeFromDict_total_on_domain_witness :
    ((0 : ℚ) ≤ exampleParams.base_salary ∧ 1 ≤ exampleParams.multiplier ∧
      0 ≤ exampleParams.bonus_percentage ∧
      exampleParams.bonus_percentage ≤ 100 ∧ (0 : ℚ) ≤ 1000000) ∧
    computeFromDict (paramsToDict exampleParams) 1000000 =
      some (compute exampleParams 1000000) :=
  ⟨⟨by decide, by decide, by decide, by decide, by decide⟩,
    computeFromDict_total_on_domain exampleParams 1000000 (by decide)
      (by decide) (by decide) (by decide) (by decide)⟩

/-- Claim C9: for negative collections (out of the documented domain) the
clamp absorbs the negative excess: excess 0, bonus 0, total = base salary,
and the dictionary-modelled computation still succeeds without failure. -/
theorem compute_negative_collections (p : FormulaParameters) (c : ℚ)
    (hb : 0 ≤ p.base_salary) (hm : 1 ≤ p.multiplier) (hc : c < 0) :
    (compute p c).collections_above_threshold = 0 ∧
    (compute p c).bonus_component = 0 ∧
    (compute p c).total = p.base_salary ∧
    computeFromDict (paramsToDict p) c = some (compute p c) := by
  have ht : 0 ≤ p.base_salary * p.multiplier :=
    mul_nonneg hb (le_trans zero_le_one hm)
  have h0 : max 0 (c - p.base_salary * p.multiplier) = 0 :=
    max_eq_left (by linarith)
  refine ⟨?_, ?_, ?_, rfl⟩ <;> simp [compute, h0]

/-- Concrete instantiation of `compute_negative_collections` at the
default parameters and collections -50000. -/
theorem compute_negative_collections_witness :
    ((0 : ℚ) ≤ exampleParams.base_salary ∧ 1 ≤ exampleParams.multiplier ∧
      (-50000 : ℚ) < 0) ∧
    (compute exampleParams (-50000)).collections_above_threshold = 0 ∧
    (compute exampleParams (-50000)).bonus_component = 0 ∧
    (compute exampleParams (-50000)).total = exampleParams.base_salary ∧
    computeFromDict (paramsToDict exampleParams) (-50000) =
      some (compute exampleParams (-50000)) :=
  ⟨⟨by decide, by decide, by decide⟩,
    compute_negative_collections exampleParams (-50000) (by decide)
      (by decide) (by decide)⟩

/-- Claim C10: the chart sweep uses exactly 100 evenly spaced samples over
[100000, 3000000], first sample 100000, last sample 3000000, consecutive
samples 2900000/99 apart, and the comparison series has exactly 100 rows
whose collections values follow the samples in order. -/
theorem comparison_sweep_shape :
    collection_range.length = 100 ∧
    collection_range[0]? = some 100000 ∧
    collection_range[99]? = some 3000000 ∧
    (∀ i : ℕ, i + 1 < 100 →
      ((collection_range[i + 1]?).bind fun b =>
        (collection_range[i]?).map fun a => b - a) = some (2900000 / 99)) ∧
    (∀ q1 q2 q3 : FormulaParameters,
      (comparison_data q1 q2 q3).length = 100 ∧
      ∀ i : ℕ, (comparison_data q1 q2 q3)[i]?.map
        ComparisonRow.net_collections = collection_range[i]?) := by
  refine ⟨?_, ?_, ?_, ?_, ?_⟩
  · simp [collection_range]
  · rw [collection_range_getElem 0 (by norm_num)]
    norm_num
  · rw [collection_range_getElem 99 (by norm_num)]
    norm_num
  · intro i h
    rw [collection_range_getElem (i + 1) h, collection_range_getElem i
      (by omega)]
    simp only [Option.some_bind, Option.map_some']
    push_cast
    ring_nf
  · intro q1 q2 q3
    constructor
    · simp [comparison_data, sweep, collection_range]
    · intro i
      simp [comparison_data, sweep, Option.map_map, Function.comp_def]

/-- Concrete instantiation of `comparison_sweep_shape`: spacing between
samples 3 and 4, and row count and row 5 of the comparison series at the
default parameters. -/
theorem comparison_sweep_shape_witness :
    (3 + 1 < 100 ∧
      ((collection_range[3 + 1]?).bind fun b =>
        (collection_range[3]?).map fun a => b - a) = some (2900000 / 99)) ∧
    (comparison_data exampleParams exampleParams exampleParams).length =
      100 ∧
    (comparison_data exampleParams exampleParams exampleParams)[5]?.map
      ComparisonRow.net_collections = collection_range[5]? :=
  ⟨⟨by decide, comparison_sweep_shape.2.2.2.1 3 (by decide)⟩,
    (comparison_sweep_shape.2.2.2.2 exampleParams exampleParams
      exampleParams).1,
    (comparison_sweep_shape.2.2.2.2 exampleParams exampleParams
      exampleParams).2 5⟩

end OphthoCalc
